import Mathlib

/-!
Shallow embedding of src/src/modules/module-default-device-restore.c
(PulseAudio's "automatically restore the default sink and source" module).

The module's own code — `load`, `save`, `time_cb`, `subscribe_cb`, `pa__init`,
`pa__done` — is translated function by function.  Host infrastructure that the
module calls but whose code is not in the repository snapshot (pulsecore:
namereg, subscribe, core-util, the mainloop) is modelled from the spec; each
such definition carries a doc comment saying so.

Conventions of the embedding:
* C pointers that the module only tests for NULL (`u->subscription`,
  `u->time_event`, `u->sink_filename`, `u->source_filename`) become `Bool`
  fields ("the pointer is non-NULL").
* The two state files become two explicit `Slot`s; `fopen(path, "r")` failing
  with `ENOENT` is `FileState.absent`, failing otherwise is
  `FileState.ioError`; `fopen(path, "w")` succeeds iff `Slot.writable`.
* Every operation returns, besides the new state, a list of `Action`s: the
  externally visible side effects (file reads/writes, log lines, timer
  arming/freeing, handle frees).  "No operation was performed" is an empty
  action list together with an unchanged state.
* The number of timer objects currently allocated in the mainloop is tracked
  in `Module.timers`, so that "at most one pending timer" is a provable
  statement rather than a typing artefact.
-/

set_option maxHeartbeats 1000000

namespace DefaultDeviceRestore

/-- Resource class: `PA_NAMEREG_SINK` / `PA_NAMEREG_SOURCE` as used by the
module (one persisted slot and one host default per class). -/
inductive RClass where
  | sink
  | source
  deriving DecidableEq, Repr

/-- Modelled from the spec: event facilities of the host event bus
(`pa_subscription_event_type_t` facility part); the module only cares that
`server` is the facility of "default sink/source changed" notifications and
that all other categories exist and can be posted. -/
inductive FacilityT where
  | server
  | sink
  | source
  | sinkInput
  | sourceOutput
  | moduleFac
  | client
  | sampleCache
  deriving DecidableEq, Repr

/-- State of one on-disk slot file as seen by `fopen(path, "r")`:
absent (`ENOENT`), failing with another errno, or present with content. -/
inductive FileState where
  | absent
  | ioError
  | present (content : List Char)
  deriving DecidableEq, Repr

/-- One persisted slot: the file's current state, and whether
`fopen(path, "w")` would succeed. -/
structure Slot where
  file : FileState
  writable : Bool
  deriving DecidableEq, Repr

/-- The two state files `default-sink` and `default-source`. -/
structure FS where
  sinkSlot : Slot
  sourceSlot : Slot
  deriving DecidableEq, Repr

/-- Modelled from the spec: the slice of `pa_core` the module consults.
`default_sink_name`/`default_source_name` are the explicitly configured
defaults checked by `load` ("is there already an explicitly configured default
for this class?"); `sinks`/`sources` are the name registry used for the
validity check; `cur_sink`/`cur_source` are the host's current default names,
read by `save` via `pa_namereg_get_default_sink_name`/`..._source_name` and
written by `pa_namereg_set_default`. -/
structure Core where
  default_sink_name : Option String
  default_source_name : Option String
  sinks : List String
  sources : List String
  cur_sink : Option String
  cur_source : Option String
  deriving DecidableEq, Repr

/-- `struct userdata` of the module.  Pointer fields are represented by
their non-NULL-ness; `modified` is the `pa_bool_t` dirty flag. -/
structure Userdata where
  subscription : Bool
  time_event : Bool
  sink_filename : Bool
  source_filename : Bool
  modified : Bool
  deriving DecidableEq, Repr

/-- Externally visible side effects of the module's operations. -/
inductive Action where
  | readFile (cls : RClass)
  | writeFile (cls : RClass) (content : List Char)
  | setDefault (cls : RClass) (name : String)
  | logInfo (cls : RClass)
  | logError (cls : RClass)
  | armTimer
  | freeTimer
  | freeSubscription
  | freeUserdata
  deriving DecidableEq, Repr

/-- `DEFAULT_SAVE_INTERVAL`: the debounce interval in seconds. -/
def DEFAULT_SAVE_INTERVAL : Nat := 5

/-- Modelled from the spec: `pa_strempty` (pulsecore/core-util.h, not under
src/) maps a NULL string to the empty string: `save` "writes the name (empty
string if None)". -/
def pa_strempty (s : Option String) : String := s.getD ""

/-- The exact line `save` writes for a (possibly absent) default name:
`fprintf(f, "%s\n", pa_strempty(n))`. -/
def lineOf (n : Option String) : List Char := (pa_strempty n).data ++ ['\n']

/-- Character-reading loop of C `fgets` with room for `n` characters:
stop after `n` characters, at end of file, or just after a newline
(the newline is stored in the buffer). -/
def fgetsAux : Nat → List Char → List Char
  | 0, _ => []
  | _ + 1, [] => []
  | n + 1, c :: cs => if c = '\n' then [c] else c :: fgetsAux n cs

/-- C `fgets(buf, n, f)`: reads at most `n - 1` characters from the stream,
stopping after a newline or at end of file. -/
def fgets (n : Nat) (content : List Char) : List Char := fgetsAux (n - 1) content

/-- Modelled from the spec: `pa_strip_nl` (pulsecore/core-util.c, not under
src/) "strips trailing newline/whitespace"; it truncates the buffer at the
first CR or LF character. -/
def pa_strip_nl (s : List Char) : List Char :=
  s.takeWhile (fun c => (c != '\n') && (c != '\x0d'))

/-- The line `load` reads back from a slot file:
`char ln[256] = ""; fgets(ln, sizeof(ln)-1, f); pa_strip_nl(ln);`.
`sizeof(ln) - 1 = 255`, so at most 254 characters are read. -/
def readSlotLine (content : List Char) : List Char := pa_strip_nl (fgets 255 content)

/-- One per-class block of `load` (lines 60-78 for the sink, 80-98 for the
source): skip if a default is manually configured; otherwise open the slot,
read one stripped line, and if it is non-empty and names a registered device,
set it as the class default; an absent file is silently ignored, any other
open failure is logged as an error.  Returns the (possibly updated) current
default for the class alongside the emitted effects. -/
def loadClass (cls : RClass) (configured : Option String) (slot : Slot)
    (registry : List String) (cur : Option String) : Option String × List Action :=
  match configured with
  | some _ => (cur, [Action.logInfo cls])
  | none =>
    match slot.file with
    | FileState.present content =>
      let ln := readSlotLine content
      if ln.isEmpty then
        (cur, [Action.readFile cls, Action.logInfo cls])
      else if registry.contains (String.mk ln) then
        (some (String.mk ln),
          [Action.readFile cls, Action.setDefault cls (String.mk ln), Action.logInfo cls])
      else
        (cur, [Action.readFile cls, Action.logInfo cls])
    | FileState.absent => (cur, [])
    | FileState.ioError => (cur, [Action.logError cls])

/-- `load` (lines 55-99): run the sink block, then the source block. -/
def load (core : Core) (fs : FS) : Core × List Action :=
  let rs := loadClass RClass.sink core.default_sink_name fs.sinkSlot core.sinks core.cur_sink
  let ro := loadClass RClass.source core.default_source_name fs.sourceSlot core.sources core.cur_source
  ({ core with cur_sink := rs.1, cur_source := ro.1 }, rs.2 ++ ro.2)

/-- One per-class block of `save` (lines 107-114 for the sink, 116-123 for
the source): if the filename is non-NULL, open for writing; on success write
the current default name (empty for NULL) plus newline, otherwise log an
error. -/
def saveClass (cls : RClass) (filename : Bool) (slot : Slot)
    (cur : Option String) : Slot × List Action :=
  if filename then
    if slot.writable then
      ({ slot with file := FileState.present (lineOf cur) },
        [Action.writeFile cls (lineOf cur)])
    else
      (slot, [Action.logError cls])
  else
    (slot, [])

/-- `save` (lines 101-126): return immediately unless `u->modified`;
otherwise attempt both per-class writes and finally clear `u->modified`
unconditionally. -/
def save (u : Userdata) (core : Core) (fs : FS) : Userdata × FS × List Action :=
  if u.modified = false then (u, fs, [])
  else
    let rs := saveClass RClass.sink u.sink_filename fs.sinkSlot core.cur_sink
    let ro := saveClass RClass.source u.source_filename fs.sourceSlot core.cur_source
    ({ u with modified := false },
      { sinkSlot := rs.1, sourceSlot := ro.1 }, rs.2 ++ ro.2)

/-- Whole-system state: the module pointer `m->userdata` (NULL or pointing at
a `Userdata`), whether the subscription is still registered on the core's
event bus, whether the block behind `m->userdata` has been freed, the core,
the file system, and the number of timer objects currently allocated in the
mainloop. -/
structure Module where
  userdata : Option Userdata
  registered : Bool
  udFreed : Bool
  core : Core
  fs : FS
  timers : Nat
  deriving DecidableEq, Repr

/-- `subscribe_cb` (lines 140-153): set `u->modified = TRUE`; if no timer
event exists, allocate one (`time_new`) for now + `DEFAULT_SAVE_INTERVAL`. -/
def subscribe_cb (m : Module) : Module × List Action :=
  match m.userdata with
  | none => (m, [])
  | some u =>
    let u1 := { u with modified := true }
    if u1.time_event = false then
      let u2 := { u1 with time_event := true }
      ({ m with userdata := some u2, timers := m.timers + 1 }, [Action.armTimer])
    else
      ({ m with userdata := some u1 }, [])

/-- `time_cb` (lines 128-138): run `save`, then free the timer event and set
`u->time_event = NULL` if it is non-NULL. -/
def time_cb (m : Module) : Module × List Action :=
  match m.userdata with
  | none => (m, [])
  | some u =>
    let r := save u m.core m.fs
    if r.1.time_event then
      let u2 := { r.1 with time_event := false }
      ({ m with userdata := some u2, fs := r.2.1, timers := m.timers - 1 },
        r.2.2 ++ [Action.freeTimer])
    else
      ({ m with userdata := some r.1, fs := r.2.1 }, r.2.2)

/-- `PA_SUBSCRIPTION_MASK_SERVER`: the mask passed to `pa_subscription_new`
at line 171 admits exactly the `server` facility. -/
def PA_SUBSCRIPTION_MASK_SERVER (f : FacilityT) : Bool :=
  match f with
  | FacilityT.server => true
  | _ => false

/-- Modelled from the spec: event delivery of `pa_subscription`
(pulsecore/subscribe.c, not under src/) — a registered subscription's callback
is invoked exactly for events whose facility is in the subscription's mask;
unregistered subscriptions receive nothing. -/
def deliverEvent (m : Module) (f : FacilityT) : Module × List Action :=
  if m.registered && PA_SUBSCRIPTION_MASK_SERVER f then subscribe_cb m else (m, [])

/-- Modelled from the spec: `pa_namereg_set_default`-style update of the
host's current default name for one class. -/
def setCur (core : Core) (cls : RClass) (n : Option String) : Core :=
  match cls with
  | RClass.sink => { core with cur_sink := n }
  | RClass.source => { core with cur_source := n }

/-- Modelled from the spec: a "default changed" event — the host updates the
current default of one class and posts a `server`-facility change event on
the bus. -/
def hostChangeDefault (m : Module) (cls : RClass) (n : Option String) : Module × List Action :=
  deliverEvent { m with core := setCur m.core cls n } FacilityT.server

/-- `pa__init` (lines 155-179), successful path: allocate the zeroed
userdata, resolve both state paths, run `load`, and register the subscription
with mask `PA_SUBSCRIPTION_MASK_SERVER`. -/
def pa__init (core : Core) (fs : FS) : Module × List Action :=
  let r := load core fs
  let u : Userdata :=
    { subscription := true, time_event := false,
      sink_filename := true, source_filename := true, modified := false }
  ({ userdata := some u, registered := true, udFreed := false,
     core := r.1, fs := fs, timers := 0 }, r.2)

/-- `pa__done` (lines 181-200): return if `m->userdata` is NULL; otherwise
run `save`, free the subscription and the timer event if their fields are
non-NULL, and free the userdata.  The C code never sets `m->userdata = NULL`
and never clears `u->subscription` or `u->time_event` on this path, so the
resulting state keeps the stale pointer (`userdata` still `some`, fields
intact) with `udFreed` recording that the block was freed; a later call reads
those stale field values back, which is what a concrete re-run of the C code
on the freed block would act on. -/
def pa__done (m : Module) : Module × List Action :=
  match m.userdata with
  | none => (m, [])
  | some u =>
    let r := save u m.core m.fs
    ({ m with userdata := some r.1,
              registered := if r.1.subscription then false else m.registered,
              udFreed := true,
              fs := r.2.1,
              timers := if r.1.time_event then m.timers - 1 else m.timers },
      r.2.2
        ++ (if r.1.subscription then [Action.freeSubscription] else [])
        ++ (if r.1.time_event then [Action.freeTimer] else [])
        ++ [Action.freeUserdata])

/-- Apply a burst of host default changes to the core, without any event
delivery: the net effect of the host-side updates alone. -/
def applyEvs (core : Core) : List (RClass × Option String) → Core
  | [] => core
  | ev :: rest => applyEvs (setCur core ev.1 ev.2) rest

/-- Deliver a burst of "default changed" events (each updates the host's
current default and is delivered through the bus), collecting all effects. -/
def runBurst : Module → List (RClass × Option String) → Module × List Action
  | m, [] => (m, [])
  | m, ev :: rest =>
    let p := hostChangeDefault m ev.1 ev.2
    let q := runBurst p.1 rest
    (q.1, p.2 ++ q.2)

/-- Is this action a successful file write? -/
def Action.isWrite : Action → Bool
  | Action.writeFile _ _ => true
  | _ => false

/-- Is this action the arming of a debounce timer? -/
def Action.isArm : Action → Bool
  | Action.armTimer => true
  | _ => false

/-- Number of read accesses to the slot of class `cls` in an effect list. -/
def countReads (cls : RClass) (acts : List Action) : Nat :=
  (acts.filter fun a =>
    match a with
    | Action.readFile c => decide (c = cls)
    | _ => false).length

/-- States reachable from a successful `pa__init` by any interleaving of
host default changes, arbitrary bus events, timer firings (a timer can only
fire while it exists and the userdata is still live), and teardown calls. -/
inductive Reach : Module → Prop where
  | init (core : Core) (fs : FS) : Reach (pa__init core fs).1
  | change (m : Module) (cls : RClass) (n : Option String) :
      Reach m → Reach (hostChangeDefault m cls n).1
  | deliver (m : Module) (f : FacilityT) :
      Reach m → Reach (deliverEvent m f).1
  | fire (m : Module) (u : Userdata) :
      Reach m → m.userdata = some u → u.time_event = true → m.udFreed = false →
      Reach (time_cb m).1
  | done (m : Module) : Reach m → Reach (pa__done m).1

/-- Timer-accounting invariant: at most one timer object is ever allocated;
while the userdata is live, the number of allocated timers is exactly the
indicator of `u->time_event`; and a still-registered subscription implies a
live userdata whose subscription field is set. -/
def TimerInv (m : Module) : Prop :=
  m.timers ≤ 1 ∧
  (m.registered = true → m.udFreed = false) ∧
  (m.registered = true → ∃ u, m.userdata = some u ∧ u.subscription = true) ∧
  (m.udFreed = false →
    m.timers = (match m.userdata with
      | none => 0
      | some u => if u.time_event = true then 1 else 0))

/-- A concrete core with nothing configured and one registered sink. -/
def core0 : Core :=
  { default_sink_name := none, default_source_name := none,
    sinks := ["alsa-output"], sources := [],
    cur_sink := none, cur_source := none }

/-- A concrete file system: both slot files absent, both slots writable. -/
def fs0 : FS :=
  { sinkSlot := { file := FileState.absent, writable := true },
    sourceSlot := { file := FileState.absent, writable := true } }

/-- A concrete file system on which every write attempt fails: both slot
files absent and both slots unwritable. -/
def fsRO : FS :=
  { sinkSlot := { file := FileState.absent, writable := false },
    sourceSlot := { file := FileState.absent, writable := false } }

/-! ## Helper lemmas -/

/-- `save` rewrites only the `modified` field of the userdata, and always
clears it. -/
theorem save_userdata_fields (u : Userdata) (core : Core) (fs : FS) :
    (save u core fs).1.subscription = u.subscription ∧
    (save u core fs).1.time_event = u.time_event ∧
    (save u core fs).1.sink_filename = u.sink_filename ∧
    (save u core fs).1.source_filename = u.source_filename ∧
    (save u core fs).1.modified = false := by
  by_cases h : u.modified = false <;> simp [save, h]

/-- `countReads` distributes over list concatenation. -/
theorem countReads_append (c : RClass) (l1 l2 : List Action) :
    countReads c (l1 ++ l2) = countReads c l1 + countReads c l2 := by
  simp [countReads, List.filter_append]

/-- A `loadClass` run for one class never reads the other class's slot. -/
theorem countReads_loadClass_ne (c c' : RClass) (cfg : Option String) (slot : Slot)
    (registry : List String) (cur : Option String) (h : ¬ c = c') :
    countReads c' (loadClass c cfg slot registry cur).2 = 0 := by
  rcases cfg with _ | x
  · rcases hf : slot.file with _ | _ | content
    · simp [loadClass, countReads, hf]
    · simp [loadClass, countReads, hf]
    · simp only [loadClass, hf]
      split_ifs <;> simp [countReads, h]
  · simp [loadClass, countReads]

/-- `subscribe_cb` touches only the userdata's flags and the timer count:
core, files, registration and freed-ness are unchanged, and the dirty flag
of a live userdata is set. -/
theorem subscribe_cb_fields (m : Module) :
    (subscribe_cb m).1.core = m.core ∧
    (subscribe_cb m).1.fs = m.fs ∧
    (subscribe_cb m).1.registered = m.registered ∧
    (subscribe_cb m).1.udFreed = m.udFreed ∧
    (subscribe_cb m).1.userdata.map Userdata.modified
      = m.userdata.map (fun _ => true) := by
  rcases hu : m.userdata with _ | u
  · simp [subscribe_cb, hu]
  · by_cases ht : u.time_event = false <;> simp [subscribe_cb, hu, ht]

/-! ## Claim theorems -/

/-- C7: a save is a no-op when the dirty flag is clear — no write, no state
change — and therefore running `save` twice in a row without an intervening
change event makes the second run return immediately with no write. -/
theorem save_clean_noop (u : Userdata) (core : Core) (fs : FS) :
    save { u with modified := false } core fs = ({ u with modified := false }, fs, []) ∧
    save (save u core fs).1 core (save u core fs).2.1
      = ((save u core fs).1, (save u core fs).2.1, []) := by
  constructor
  · simp [save]
  · by_cases h : u.modified = false
    · simp [save, h]
    · simp [save, h]

/-- C8: for a class with no manually configured default, `load` on an absent
slot file leaves the current default untouched and performs no action at all
(in particular no error log), while an open failure other than not-found
produces exactly an error log and still leaves the default untouched. -/
theorem missing_slot_no_default (cls : RClass) (slot : Slot) (registry : List String)
    (cur : Option String) (habs : slot.file = FileState.absent) :
    loadClass cls none slot registry cur = (cur, []) ∧
    (loadClass cls none { slot with file := FileState.ioError } registry cur).1 = cur ∧
    (loadClass cls none { slot with file := FileState.ioError } registry cur).2
      = [Action.logError cls] := by
  refine ⟨?_, ?_, ?_⟩ <;> simp [loadClass, habs]

/-- Witness for C8: sink class, absent but otherwise readable slot, empty
registry, no current default. -/
theorem missing_slot_no_default_witness :
    (Slot.mk FileState.absent true).file = FileState.absent ∧
    (loadClass RClass.sink none (Slot.mk FileState.absent true) [] none = (none, []) ∧
     (loadClass RClass.sink none { Slot.mk FileState.absent true with
        file := FileState.ioError } [] none).1 = none ∧
     (loadClass RClass.sink none { Slot.mk FileState.absent true with
        file := FileState.ioError } [] none).2 = [Action.logError RClass.sink]) :=
  ⟨rfl, missing_slot_no_default RClass.sink (Slot.mk FileState.absent true) [] none rfl⟩

/-- C5: per class, if a default is manually configured then `load` never
opens that class's slot file, leaves the current default of that class
unchanged, and leaves the configured value itself unchanged, whatever the
file contents are. -/
theorem manual_config_not_overwritten (core : Core) (fs : FS) :
    (core.default_sink_name = none ∨
      (countReads RClass.sink (load core fs).2 = 0 ∧
       (load core fs).1.cur_sink = core.cur_sink ∧
       (load core fs).1.default_sink_name = core.default_sink_name)) ∧
    (core.default_source_name = none ∨
      (countReads RClass.source (load core fs).2 = 0 ∧
       (load core fs).1.cur_source = core.cur_source ∧
       (load core fs).1.default_source_name = core.default_source_name)) := by
  constructor
  · rcases hs : core.default_sink_name with _ | n
    · exact Or.inl rfl
    · refine Or.inr ⟨?_, ?_, ?_⟩
      · have h2 : (load core fs).2
            = (loadClass RClass.sink core.default_sink_name fs.sinkSlot
                core.sinks core.cur_sink).2
              ++ (loadClass RClass.source core.default_source_name fs.sourceSlot
                core.sources core.cur_source).2 := rfl
        rw [h2, countReads_append,
          countReads_loadClass_ne RClass.source RClass.sink _ _ _ _ (by simp), hs]
        simp [loadClass, countReads]
      · simp [load, loadClass, hs]
      · simp [load, hs]
  · rcases hs : core.default_source_name with _ | n
    · exact Or.inl rfl
    · refine Or.inr ⟨?_, ?_, ?_⟩
      · have h2 : (load core fs).2
            = (loadClass RClass.sink core.default_sink_name fs.sinkSlot
                core.sinks core.cur_sink).2
              ++ (loadClass RClass.source core.default_source_name fs.sourceSlot
                core.sources core.cur_source).2 := rfl
        rw [h2, countReads_append,
          countReads_loadClass_ne RClass.sink RClass.source _ _ _ _ (by simp), hs]
        simp [loadClass, countReads]
      · simp [load, loadClass, hs]
      · simp [load, hs]

/-- C2: delivering a bus event either leaves the whole state unchanged with
no effect (which is forced whenever the facility is not `server`, the mask
the module subscribed with, or the subscription is gone), or the event is a
`server`-facility event on a registered subscription, in which case the dirty
flag of the live userdata is set while core and files are untouched. -/
theorem server_events_only (m : Module) (f : FacilityT) :
    deliverEvent m f = (m, []) ∨
    (f = FacilityT.server ∧ m.registered = true ∧
      (deliverEvent m f).1.core = m.core ∧
      (deliverEvent m f).1.fs = m.fs ∧
      (deliverEvent m f).1.userdata.map Userdata.modified
        = m.userdata.map (fun _ => true)) := by
  cases f
  case server =>
    by_cases hr : m.registered
    · have hd : deliverEvent m FacilityT.server = subscribe_cb m := by
        simp [deliverEvent, PA_SUBSCRIPTION_MASK_SERVER, hr]
      have h := subscribe_cb_fields m
      exact Or.inr ⟨rfl, hr, by rw [hd]; exact h.1, by rw [hd]; exact h.2.1,
        by rw [hd]; exact h.2.2.2.2⟩
    · have hr' : m.registered = false := by revert hr; cases m.registered <;> simp
      exact Or.inl (by simp [deliverEvent, hr'])
  all_goals exact Or.inl (by simp [deliverEvent, PA_SUBSCRIPTION_MASK_SERVER])

/-- C4 (amended): the dirty flag is set by every delivered change event, and
is cleared at the end of every `save` run — unconditionally, even when the
write attempt failed and the change therefore remains unsaved (a failed
attempt leaves the files untouched, as the third conjunct shows on a file
system where every write fails); a later change event is then required to
re-raise the flag. -/
theorem dirty_flag_cleared_on_save (u : Userdata) (core : Core) (fs : FS) (m : Module) :
    (save u core fs).1.modified = false ∧
    (subscribe_cb m).1.userdata.map Userdata.modified = m.userdata.map (fun _ => true) ∧
    (save { u with modified := true } core fsRO).2.1 = fsRO := by
  refine ⟨(save_userdata_fields u core fs).2.2.2.2, (subscribe_cb_fields m).2.2.2.2, ?_⟩
  obtain ⟨us, ut, usf, uof, um⟩ := u
  cases usf <;> cases uof <;> simp [save, saveClass, fsRO]

/-- C4 (counterexample to the claim as stated): on a file system where the
write fails, observe one change event (the current default sink becomes
"A"), let the timer fire; in the resulting reachable state the change is
still unsaved — the sink slot file is still absent while the current default
is "A" — yet the dirty flag is false. -/
theorem dirty_flag_counterexample :
    Reach (time_cb (hostChangeDefault (pa__init core0 fsRO).1 RClass.sink (some "A")).1).1 ∧
    (time_cb (hostChangeDefault (pa__init core0 fsRO).1 RClass.sink
        (some "A")).1).1.userdata.map Userdata.modified = some false ∧
    (time_cb (hostChangeDefault (pa__init core0 fsRO).1 RClass.sink
        (some "A")).1).1.core.cur_sink = some "A" ∧
    (time_cb (hostChangeDefault (pa__init core0 fsRO).1 RClass.sink
        (some "A")).1).1.fs.sinkSlot.file = FileState.absent := by
  refine ⟨?_, by decide, by decide, by decide⟩
  exact Reach.fire _
    { subscription := true, time_event := true, sink_filename := true,
      source_filename := true, modified := true }
    (Reach.change _ RClass.sink (some "A") (Reach.init core0 fsRO)) rfl rfl rfl

/-- C9 (amended): `pa__done` is a no-op exactly when `m->userdata` is NULL
(a module that was never initialised); since it never clears `m->userdata`,
any call on a module whose userdata pointer is set — including a repeated
call after a completed teardown — runs the teardown body again: the userdata
pointer is still set afterwards, the block is freed (again), and the free of
the userdata is performed. -/
theorem teardown_guard_only_null (m : Module) :
    pa__done { m with userdata := none } = ({ m with userdata := none }, []) ∧
    (m.userdata = none ∨
      ((pa__done m).1.userdata.isSome = true ∧
       Action.freeUserdata ∈ (pa__done m).2 ∧
       (pa__done m).1.udFreed = true)) := by
  constructor
  · simp [pa__done]
  · rcases hu : m.userdata with _ | u
    · exact Or.inl rfl
    · exact Or.inr (by simp [pa__done, hu])

/-- C9 (counterexample to the claim as stated): initialise, tear down, then
tear down again; the second `pa__done` call is not a no-op — it frees the
(already freed) subscription handle a second time, so the subscription is
not unregistered exactly once across the two teardown calls. -/
theorem double_teardown_counterexample :
    Action.freeSubscription ∈ (pa__done (pa__init core0 fs0).1).2 ∧
    Action.freeSubscription ∈ (pa__done (pa__done (pa__init core0 fs0).1).1).2 ∧
    (pa__done (pa__done (pa__init core0 fs0).1).1).2 ≠ [] ∧
    (pa__done (pa__done (pa__init core0 fs0).1).1).1.userdata.isSome = true := by
  refine ⟨by decide, by decide, by decide, by decide⟩

/-- C6: if a change event is observed and `pa__done` runs before the timer
fires, the teardown's `save` call still flushes: with both state paths
resolved and both slots writable, the final on-disk contents of both slots
are exactly the post-event current default names, written during teardown. -/
theorem shutdown_flushes_pending_change (m0 : Module) (u0 : Userdata) (cls : RClass)
    (n : Option String)
    (hud : m0.userdata = some u0) (hreg : m0.registered = true)
    (hsf : u0.sink_filename = true) (hof : u0.source_filename = true)
    (hws : m0.fs.sinkSlot.writable = true) (hwo : m0.fs.sourceSlot.writable = true) :
    (pa__done (hostChangeDefault m0 cls n).1).1.fs.sinkSlot.file
        = FileState.present (lineOf (hostChangeDefault m0 cls n).1.core.cur_sink) ∧
    (pa__done (hostChangeDefault m0 cls n).1).1.fs.sourceSlot.file
        = FileState.present (lineOf (hostChangeDefault m0 cls n).1.core.cur_source) ∧
    (pa__done (hostChangeDefault m0 cls n).1).2.filter Action.isWrite
        = [Action.writeFile RClass.sink (lineOf (hostChangeDefault m0 cls n).1.core.cur_sink),
           Action.writeFile RClass.source
             (lineOf (hostChangeDefault m0 cls n).1.core.cur_source)] := by
  obtain ⟨ud, reg, fr, co, fsm, tm⟩ := m0
  obtain ⟨us, ut, usf, uof, um⟩ := u0
  obtain ⟨⟨f1, w1⟩, ⟨f2, w2⟩⟩ := fsm
  simp only at hud hreg hsf hof hws hwo
  subst hud hreg hsf hof hws hwo
  cases cls <;> cases ut <;> cases us <;>
    simp [hostChangeDefault, deliverEvent, PA_SUBSCRIPTION_MASK_SERVER, subscribe_cb,
      setCur, pa__done, save, saveClass, Action.isWrite, lineOf]

/-- Witness for C6: concrete initialised module, one change event setting the
default sink to "B", then teardown. -/
theorem shutdown_flushes_pending_change_witness :
    (pa__init core0 fs0).1.userdata
        = some { subscription := true, time_event := false, sink_filename := true,
                 source_filename := true, modified := false } ∧
    (pa__init core0 fs0).1.registered = true ∧
    ((pa__done (hostChangeDefault (pa__init core0 fs0).1 RClass.sink (some "B")).1).1.fs.sinkSlot.file
        = FileState.present
            (lineOf (hostChangeDefault (pa__init core0 fs0).1 RClass.sink (some "B")).1.core.cur_sink) ∧
     (pa__done (hostChangeDefault (pa__init core0 fs0).1 RClass.sink (some "B")).1).1.fs.sourceSlot.file
        = FileState.present
            (lineOf (hostChangeDefault (pa__init core0 fs0).1 RClass.sink (some "B")).1.core.cur_source) ∧
     (pa__done (hostChangeDefault (pa__init core0 fs0).1 RClass.sink (some "B")).1).2.filter
         Action.isWrite
        = [Action.writeFile RClass.sink
             (lineOf (hostChangeDefault (pa__init core0 fs0).1 RClass.sink (some "B")).1.core.cur_sink),
           Action.writeFile RClass.source
             (lineOf (hostChangeDefault (pa__init core0 fs0).1 RClass.sink
               (some "B")).1.core.cur_source)]) :=
  ⟨rfl, rfl,
    shutdown_flushes_pending_change (pa__init core0 fs0).1
      { subscription := true, time_event := false, sink_filename := true,
        source_filename := true, modified := false }
      RClass.sink (some "B") rfl rfl rfl rfl rfl rfl⟩

/-- While the timer is already armed and the dirty flag set, a burst of
further change events only moves the host's current defaults: no effect is
emitted at all (in particular no write and no second timer), and the module
state is unchanged except for following the host's core updates. -/
theorem runBurst_armed (evs : List (RClass × Option String)) :
    ∀ (m : Module) (u : Userdata), m.userdata = some u → m.registered = true →
      u.time_event = true → u.modified = true →
      runBurst m evs = ({ m with core := applyEvs m.core evs }, []) := by
  induction evs with
  | nil =>
    intro m u _ _ _ _
    simp [runBurst, applyEvs]
  | cons ev rest ih =>
    intro m u hud hreg hte hmod
    obtain ⟨ud, reg, fr, co, fsm, tm⟩ := m
    obtain ⟨us, ut, usf, uof, um⟩ := u
    simp only at hud hreg hte hmod
    subst hud hreg hte hmod
    have step := ih
      ⟨some ⟨us, true, usf, uof, true⟩, true, fr, setCur co ev.1 ev.2, fsm, tm⟩
      ⟨us, true, usf, uof, true⟩ rfl rfl rfl rfl
    simp [runBurst, hostChangeDefault, deliverEvent, PA_SUBSCRIPTION_MASK_SERVER,
      subscribe_cb, applyEvs, step]

/-- C1: starting from the Idle state (no timer pending) on a registered
module with resolved paths and writable slots, a burst of N ≥ 1 change
events performs no write and arms exactly one timer; when that single timer
fires it performs the one save, whose writes — and the resulting on-disk
contents — are the current default names at firing time (the result of the
whole burst, not any intermediate value), after which the timer is gone. -/
theorem debounce_coalesces (m0 : Module) (u0 : Userdata) (ev : RClass × Option String)
    (evs : List (RClass × Option String))
    (hud : m0.userdata = some u0) (hreg : m0.registered = true)
    (hidle : u0.time_event = false)
    (hsf : u0.sink_filename = true) (hof : u0.source_filename = true)
    (hws : m0.fs.sinkSlot.writable = true) (hwo : m0.fs.sourceSlot.writable = true) :
    (runBurst m0 (ev :: evs)).2.filter Action.isWrite = [] ∧
    (runBurst m0 (ev :: evs)).2.filter Action.isArm = [Action.armTimer] ∧
    (runBurst m0 (ev :: evs)).1.core = applyEvs m0.core (ev :: evs) ∧
    (time_cb (runBurst m0 (ev :: evs)).1).2.filter Action.isWrite
      = [Action.writeFile RClass.sink (lineOf (runBurst m0 (ev :: evs)).1.core.cur_sink),
         Action.writeFile RClass.source (lineOf (runBurst m0 (ev :: evs)).1.core.cur_source)] ∧
    (time_cb (runBurst m0 (ev :: evs)).1).1.fs.sinkSlot.file
      = FileState.present (lineOf (runBurst m0 (ev :: evs)).1.core.cur_sink) ∧
    (time_cb (runBurst m0 (ev :: evs)).1).1.fs.sourceSlot.file
      = FileState.present (lineOf (runBurst m0 (ev :: evs)).1.core.cur_source) ∧
    (time_cb (runBurst m0 (ev :: evs)).1).1.userdata
      = some { u0 with time_event := false, modified := false } := by
  obtain ⟨ud, reg, fr, co, fsm, tm⟩ := m0
  obtain ⟨us, ut, usf, uof, um⟩ := u0
  obtain ⟨⟨f1, w1⟩, ⟨f2, w2⟩⟩ := fsm
  simp only at hud hreg hidle hsf hof hws hwo
  subst hud hreg hidle hsf hof hws hwo
  have hfirst : hostChangeDefault
      ⟨some ⟨us, false, true, true, um⟩, true, fr, co, ⟨⟨f1, true⟩, ⟨f2, true⟩⟩, tm⟩ ev.1 ev.2
      = (⟨some ⟨us, true, true, true, true⟩, true, fr, setCur co ev.1 ev.2,
          ⟨⟨f1, true⟩, ⟨f2, true⟩⟩, tm + 1⟩, [Action.armTimer]) := by
    simp [hostChangeDefault, deliverEvent, PA_SUBSCRIPTION_MASK_SERVER, subscribe_cb]
  have hrest := runBurst_armed evs
    ⟨some ⟨us, true, true, true, true⟩, true, fr, setCur co ev.1 ev.2,
      ⟨⟨f1, true⟩, ⟨f2, true⟩⟩, tm + 1⟩
    ⟨us, true, true, true, true⟩ rfl rfl rfl rfl
  have hburst : runBurst
      ⟨some ⟨us, false, true, true, um⟩, true, fr, co, ⟨⟨f1, true⟩, ⟨f2, true⟩⟩, tm⟩
      (ev :: evs)
      = (⟨some ⟨us, true, true, true, true⟩, true, fr, applyEvs (setCur co ev.1 ev.2) evs,
          ⟨⟨f1, true⟩, ⟨f2, true⟩⟩, tm + 1⟩, [Action.armTimer]) := by
    simp [runBurst, hfirst, hrest]
  rw [hburst]
  simp [time_cb, save, saveClass, applyEvs, Action.isWrite, Action.isArm]

/-- Witness for C1: initialised module, burst of two sink changes ("A" then
"B") inside one debounce interval, then the timer fires. -/
theorem debounce_coalesces_witness :
    (pa__init core0 fs0).1.userdata
        = some { subscription := true, time_event := false, sink_filename := true,
                 source_filename := true, modified := false } ∧
    (pa__init core0 fs0).1.registered = true ∧
    (Userdata.mk true false true true false).time_event = false ∧
    (Userdata.mk true false true true false).sink_filename = true ∧
    (Userdata.mk true false true true false).source_filename = true ∧
    (pa__init core0 fs0).1.fs.sinkSlot.writable = true ∧
    (pa__init core0 fs0).1.fs.sourceSlot.writable = true ∧
    ((runBurst (pa__init core0 fs0).1
        ((RClass.sink, some "A") :: [(RClass.sink, some "B")])).2.filter Action.isWrite = [] ∧
     (runBurst (pa__init core0 fs0).1
        ((RClass.sink, some "A") :: [(RClass.sink, some "B")])).2.filter Action.isArm
        = [Action.armTimer] ∧
     (runBurst (pa__init core0 fs0).1
        ((RClass.sink, some "A") :: [(RClass.sink, some "B")])).1.core
        = applyEvs (pa__init core0 fs0).1.core ((RClass.sink, some "A") :: [(RClass.sink, some "B")]) ∧
     (time_cb (runBurst (pa__init core0 fs0).1
        ((RClass.sink, some "A") :: [(RClass.sink, some "B")])).1).2.filter Action.isWrite
        = [Action.writeFile RClass.sink
             (lineOf (runBurst (pa__init core0 fs0).1
               ((RClass.sink, some "A") :: [(RClass.sink, some "B")])).1.core.cur_sink),
           Action.writeFile RClass.source
             (lineOf (runBurst (pa__init core0 fs0).1
               ((RClass.sink, some "A") :: [(RClass.sink, some "B")])).1.core.cur_source)] ∧
     (time_cb (runBurst (pa__init core0 fs0).1
        ((RClass.sink, some "A") :: [(RClass.sink, some "B")])).1).1.fs.sinkSlot.file
        = FileState.present (lineOf (runBurst (pa__init core0 fs0).1
            ((RClass.sink, some "A") :: [(RClass.sink, some "B")])).1.core.cur_sink) ∧
     (time_cb (runBurst (pa__init core0 fs0).1
        ((RClass.sink, some "A") :: [(RClass.sink, some "B")])).1).1.fs.sourceSlot.file
        = FileState.present (lineOf (runBurst (pa__init core0 fs0).1
            ((RClass.sink, some "A") :: [(RClass.sink, some "B")])).1.core.cur_source) ∧
     (time_cb (runBurst (pa__init core0 fs0).1
        ((RClass.sink, some "A") :: [(RClass.sink, some "B")])).1).1.userdata
        = some { Userdata.mk true false true true false with
                 time_event := false, modified := false }) :=
  ⟨rfl, rfl, rfl, rfl, rfl, rfl, rfl,
    debounce_coalesces (pa__init core0 fs0).1 (Userdata.mk true false true true false)
      (RClass.sink, some "A") [(RClass.sink, some "B")] rfl rfl rfl rfl rfl rfl rfl⟩

/-- The timer-accounting invariant holds right after `pa__init`. -/
theorem timerInv_init (core : Core) (fs : FS) : TimerInv (pa__init core fs).1 :=
  ⟨Nat.zero_le 1, fun _ => rfl, fun _ => ⟨_, rfl, rfl⟩, fun _ => rfl⟩

/-- `subscribe_cb` preserves the timer-accounting invariant whenever it can
actually be invoked, i.e. while the subscription is registered. -/
theorem timerInv_subscribe (m : Module) (hinv : TimerInv m) (hreg : m.registered = true) :
    TimerInv (subscribe_cb m).1 := by
  obtain ⟨h1, h2, h3, h4⟩ := hinv
  obtain ⟨u, hu, hus⟩ := h3 hreg
  have hfr := h2 hreg
  have ht := h4 hfr
  obtain ⟨ud, reg, fr, co, fsm, tm⟩ := m
  obtain ⟨us, ut, usf, uof, um⟩ := u
  simp only at hu hreg hfr hus
  subst hu hreg hfr hus
  simp only [Module.timers, Module.userdata] at ht
  cases ut <;> simp at ht <;> subst ht <;>
    simp [TimerInv, subscribe_cb]

/-- `deliverEvent` preserves the timer-accounting invariant. -/
theorem timerInv_deliver (m : Module) (f : FacilityT) (hinv : TimerInv m) :
    TimerInv (deliverEvent m f).1 := by
  unfold deliverEvent
  by_cases h : m.registered && PA_SUBSCRIPTION_MASK_SERVER f
  · rw [if_pos h]
    exact timerInv_subscribe m hinv ((Bool.and_eq_true _ _).mp h).1
  · rw [if_neg h]
    exact hinv

/-- A host default change preserves the timer-accounting invariant. -/
theorem timerInv_change (m : Module) (cls : RClass) (n : Option String)
    (hinv : TimerInv m) : TimerInv (hostChangeDefault m cls n).1 :=
  timerInv_deliver { m with core := setCur m.core cls n } FacilityT.server hinv

/-- `time_cb` preserves the timer-accounting invariant. -/
theorem timerInv_time_cb (m : Module) (hinv : TimerInv m) : TimerInv (time_cb m).1 := by
  obtain ⟨h1, h2, h3, h4⟩ := hinv
  obtain ⟨ud, reg, fr, co, fsm, tm⟩ := m
  rcases hud : ud with _ | u <;> subst hud
  · exact ⟨h1, h2, h3, h4⟩
  · obtain ⟨us, ut, usf, uof, um⟩ := u
    unfold TimerInv
    cases ut <;> cases fr <;> by_cases hm : um = false <;>
      simp_all [time_cb, save, saveClass]

/-- `pa__done` preserves the timer-accounting invariant. -/
theorem timerInv_done (m : Module) (hinv : TimerInv m) : TimerInv (pa__done m).1 := by
  obtain ⟨h1, h2, h3, h4⟩ := hinv
  obtain ⟨ud, reg, fr, co, fsm, tm⟩ := m
  rcases hud : ud with _ | u <;> subst hud
  · exact ⟨h1, h2, h3, h4⟩
  · obtain ⟨us, ut, usf, uof, um⟩ := u
    unfold TimerInv
    cases us <;> cases ut <;> cases reg <;> cases fr <;> by_cases hm : um = false <;>
      simp_all [pa__done, save, saveClass]

/-- Every reachable state satisfies the timer-accounting invariant. -/
theorem timerInv_reach (m : Module) (h : Reach m) : TimerInv m := by
  induction h with
  | init core fs => exact timerInv_init core fs
  | change m cls n _ ih => exact timerInv_change m cls n ih
  | deliver m f _ ih => exact timerInv_deliver m f ih
  | fire m u _ _ _ _ ih => exact timerInv_time_cb m ih
  | done m _ ih => exact timerInv_done m ih

/-- C3: in every state reachable from a successful start by change events,
other bus events, timer firings and teardown, at most one timer object is
pending; moreover, while the userdata is live the number of pending timers
is exactly 1 when `u->time_event` is armed and 0 otherwise — so a change
event arriving while a timer is pending cannot have created a second one,
and a new timer can exist only once the previous one was fired or
cancelled. -/
theorem at_most_one_pending_timer (m : Module) (h : Reach m) :
    m.timers ≤ 1 ∧
    (m.udFreed = false →
      m.timers = (match m.userdata with
        | none => 0
        | some u => if u.time_event = true then 1 else 0)) :=
  ⟨(timerInv_reach m h).1, (timerInv_reach m h).2.2.2⟩

/-- Witness for C3: the state reached by initialising and delivering one
change event (a timer is pending there). -/
theorem at_most_one_pending_timer_witness :
    (hostChangeDefault (pa__init core0 fs0).1 RClass.sink (some "A")).1.timers ≤ 1 ∧
    ((hostChangeDefault (pa__init core0 fs0).1 RClass.sink (some "A")).1.udFreed = false →
      (hostChangeDefault (pa__init core0 fs0).1 RClass.sink (some "A")).1.timers
        = (match (hostChangeDefault (pa__init core0 fs0).1 RClass.sink
              (some "A")).1.userdata with
           | none => 0
           | some u => if u.time_event = true then 1 else 0)) :=
  at_most_one_pending_timer _
    (Reach.change _ RClass.sink (some "A") (Reach.init core0 fs0))

/-- `fgets`'s reading loop returns at most `n` characters. -/
theorem fgetsAux_length_le (n : Nat) (l : List Char) : (fgetsAux n l).length ≤ n := by
  induction n generalizing l with
  | zero => simp [fgetsAux]
  | succ k ih =>
    cases l with
    | nil => simp [fgetsAux]
    | cons c cs =>
      by_cases h : c = '\n'
      · simp [fgetsAux, h]
      · simp only [fgetsAux, if_neg h, List.length_cons]
        exact Nat.succ_le_succ (ih cs)

/-- `fgets`'s reading loop only looks at the first `n` characters of the
stream. -/
theorem fgetsAux_take (n j : Nat) (l : List Char) (h : n ≤ j) :
    fgetsAux n (l.take j) = fgetsAux n l := by
  induction n generalizing j l with
  | zero => simp [fgetsAux]
  | succ k ih =>
    cases l with
    | nil => simp
    | cons c cs =>
      cases j with
      | zero => exact absurd h (by omega)
      | succ i =>
        simp only [List.take_succ_cons, fgetsAux]
        by_cases hc : c = '\n'
        · simp [hc]
        · simp [hc, ih i cs (Nat.le_of_succ_le_succ h)]

/-- On a stream whose first `n` characters contain no newline, `fgets`'s
loop returns exactly those first `n` characters. -/
theorem fgetsAux_of_no_nl (n : Nat) (l : List Char) (h : ∀ c ∈ l.take n, c ≠ '\n') :
    fgetsAux n l = l.take n := by
  induction n generalizing l with
  | zero => simp [fgetsAux]
  | succ k ih =>
    cases l with
    | nil => simp [fgetsAux]
    | cons c cs =>
      have hc : c ≠ '\n' := h c (by simp)
      simp only [fgetsAux, if_neg hc, List.take_succ_cons]
      rw [ih cs (fun x hx => h x (by simp [hx]))]

/-- Stripping does not lengthen a buffer. -/
theorem pa_strip_nl_length_le (l : List Char) : (pa_strip_nl l).length ≤ l.length := by
  induction l with
  | nil => simp [pa_strip_nl]
  | cons c cs ih =>
    by_cases h : ((c != '\n') && (c != '\x0d')) = true
    · simp only [pa_strip_nl, List.takeWhile_cons, h, if_true, List.length_cons]
      exact Nat.succ_le_succ ih
    · have h' : ((c != '\n') && (c != '\x0d')) = false := by
        revert h; cases ((c != '\n') && (c != '\x0d')) <;> simp
      simp [pa_strip_nl, List.takeWhile_cons, h']

/-- Stripping a buffer that contains no CR and no LF is the identity. -/
theorem pa_strip_nl_of_clean (l : List Char)
    (h : ∀ c ∈ l, c ≠ '\n' ∧ c ≠ '\x0d') : pa_strip_nl l = l := by
  induction l with
  | nil => rfl
  | cons c cs ih =>
    have hc := h c (by simp)
    have hb : ((c != '\n') && (c != '\x0d')) = true := by
      simp [hc.1, hc.2]
    simp only [pa_strip_nl, List.takeWhile_cons, hb, if_true]
    rw [show List.takeWhile (fun c => (c != '\n') && (c != '\x0d')) cs = pa_strip_nl cs from rfl,
      ih (fun x hx => h x (by simp [hx]))]

/-- C10: the restore path reads a slot line through a 256-byte buffer with
`fgets(ln, sizeof(ln)-1, f)`, so at most the first 255 bytes of the file are
ever consulted and the restored name is at most 255 characters long; in
particular, if `save` wrote a newline-free name longer than 255 characters,
`load` reads back only its 254-character prefix — a strict truncation, not
the full name. -/
theorem restore_truncates (content nm : List Char)
    (hclean : ∀ c ∈ nm, c ≠ '\n' ∧ c ≠ '\x0d') (hlong : 255 < nm.length) :
    (readSlotLine content).length ≤ 255 ∧
    readSlotLine content = readSlotLine (content.take 255) ∧
    readSlotLine (lineOf (some (String.mk nm))) = nm.take 254 ∧
    (readSlotLine (lineOf (some (String.mk nm)))).length < nm.length := by
  have hdata : lineOf (some (String.mk nm)) = nm ++ ['\n'] := rfl
  have htake : (nm ++ ['\n']).take 254 = nm.take 254 :=
    List.take_append_of_le_length (by omega)
  have hread : readSlotLine (nm ++ ['\n']) = nm.take 254 := by
    have hget : fgetsAux 254 (nm ++ ['\n']) = nm.take 254 := by
      rw [fgetsAux_of_no_nl 254 (nm ++ ['\n']) ?_, htake]
      intro c hcmem
      rw [htake] at hcmem
      exact (hclean c (List.mem_of_mem_take hcmem)).1
    show pa_strip_nl (fgetsAux 254 (nm ++ ['\n'])) = nm.take 254
    rw [hget]
    exact pa_strip_nl_of_clean _ (fun c hcmem => hclean c (List.mem_of_mem_take hcmem))
  refine ⟨?_, ?_, ?_, ?_⟩
  · calc (readSlotLine content).length
        ≤ (fgets 255 content).length := pa_strip_nl_length_le _
      _ ≤ 254 := fgetsAux_length_le 254 content
      _ ≤ 255 := by omega
  · show pa_strip_nl (fgetsAux 254 content) = pa_strip_nl (fgetsAux 254 (content.take 255))
    rw [fgetsAux_take 254 255 content (by omega)]
  · rw [hdata, hread]
  · rw [hdata, hread, List.length_take]
    omega

/-- Witness for C10: a 300-character newline-free name; the restored line is
its 254-character prefix. -/
theorem restore_truncates_witness :
    (∀ c ∈ List.replicate 300 'a', c ≠ '\n' ∧ c ≠ '\x0d') ∧
    255 < (List.replicate 300 'a').length ∧
    ((readSlotLine ['h', 'i', '\n']).length ≤ 255 ∧
     readSlotLine ['h', 'i', '\n'] = readSlotLine (List.take 255 ['h', 'i', '\n']) ∧
     readSlotLine (lineOf (some (String.mk (List.replicate 300 'a'))))
        = List.take 254 (List.replicate 300 'a') ∧
     (readSlotLine (lineOf (some (String.mk (List.replicate 300 'a'))))).length
        < (List.replicate 300 'a').length) :=
  ⟨fun c hc => by
      rcases List.eq_of_mem_replicate hc with rfl
      exact ⟨by decide, by decide⟩,
    by rw [List.length_replicate]; omega,
    restore_truncates ['h', 'i', '\n'] (List.replicate 300 'a')
      (fun c hc => by
        rcases List.eq_of_mem_replicate hc with rfl
        exact ⟨by decide, by decide⟩)
      (by rw [List.length_replicate]; omega)⟩

end DefaultDeviceRestore
